import Mathlib

/-!
Shallow embedding of `plot.py`, the eCO2mix visualization pipeline:
data model, loader (`load_power_data`), filter/resampler (`filter_data`),
chart builder (`plot`) and the UI frequency-option computation
(`update_sampling_freq_options`), with theorems settling the
specification's testable properties.

Modelling conventions:
* a timestamp is the number of minutes since an epoch (`Nat`); a
  calendar date is a day number, so date `d` starts at minute `d * 1440`;
* numeric power values are rationals (`ℚ`), so resampling means are exact;
* a pandas `DataFrame` is a list of column names plus a time-indexed list
  of rows, row values aligned positionally with the column names;
* fallible pandas operations are `Option`-valued (`none` models a raised
  exception).
-/

/-- Column order of the XLS input file (`COL_LABELS_XLS`). -/
def COL_LABELS_XLS : List String :=
  ["Fioul", "Charbon", "Gaz", "Nucléaire", "Eolien", "Solaire",
   "Hydraulique", "Pompage", "Bioénergies", "Ech. physiques"]

/-- Display column order (`COL_LABELS_PLOT`): the listed order, reversed
in place, exactly as the script does. -/
def COL_LABELS_PLOT : List String :=
  (["Fioul", "Charbon", "Gaz", "Hydraulique", "Nucléaire", "Solaire",
    "Eolien", "Bioénergies", "Import"] ++ ["Export", "Pompage"]).reverse

/-- Fixed category-to-CSS-color mapping (`COLORS`). -/
def COLORS : List (String × String) :=
  [("Fioul", "mediumpurple"), ("Charbon", "darkkhaki"), ("Gaz", "red"),
   ("Hydraulique", "cornflowerblue"), ("Nucléaire", "gold"),
   ("Solaire", "orange"), ("Eolien", "paleturquoise"),
   ("Bioénergies", "mediumseagreen"), ("Import", "darkgray"),
   ("Pompage", "royalblue"), ("Export", "lightgray")]

/-- A time-indexed table: column names plus rows of `(timestamp, values)`,
row values aligned positionally with `cols`. -/
structure DataFrame where
  cols : List String
  entries : List (Nat × List ℚ)
deriving DecidableEq

/-- Extract one named column as a `(timestamp, value)` series
(`data[name]`, or the series returned by `data.pop(name)`). -/
def DataFrame.getCol (df : DataFrame) (c : String) : List (Nat × ℚ) :=
  df.entries.map (fun p => (p.1, p.2.getD (df.cols.indexOf c) 0))

/-- Remove one named column (the removal effect of `data.pop(name)`). -/
def DataFrame.dropCol (df : DataFrame) (c : String) : DataFrame :=
  ⟨df.cols.erase c,
   df.entries.map (fun p => (p.1, p.2.eraseIdx (df.cols.indexOf c)))⟩

/-- Project the table onto the given column names, in the given order
(`data[names]`). -/
def DataFrame.select (df : DataFrame) (names : List String) : DataFrame :=
  ⟨names,
   df.entries.map (fun p =>
     (p.1, names.map (fun c => p.2.getD (df.cols.indexOf c) 0)))⟩

/-- Append two single-column series to a table
(`pd.concat([data, s1, s2], axis=1)`; all three share the same index, so
the alignment is positional). -/
def concatTwo (df : DataFrame) (n1 n2 : String)
    (s1 s2 : List (Nat × ℚ)) : DataFrame :=
  ⟨df.cols ++ [n1, n2],
   (df.entries.zip (s1.zip s2)).map
     (fun q => (q.1.1, q.1.2 ++ [q.2.1.2, q.2.2.2]))⟩

/-- A physical line of the input file. A `record` line carries the date
(day number), the time of day (minutes into the day) and the values of
the ten columns of `COL_LABELS_XLS`, in that order. -/
inductive PhysLine where
  | header
  | record (day : Nat) (minute : Nat) (vals : List ℚ)
  | blank
  | footer
deriving DecidableEq

/-- The `skiprows` callable of `pd.read_table`: skip every physical line
whose index is positive and even. -/
def skiprows (x : Nat) : Bool := decide (0 < x) && x % 2 == 0

/-- Physical line indices the reader keeps: those not skipped by
`skiprows`, minus the last survivor (`skipfooter=1` drops the final line
of the post-`skiprows` stream). -/
def loadKeptIndices (n : Nat) : List Nat :=
  ((List.range n).filter (fun x => ! skiprows x)).dropLast

/-- The physical lines `pd.read_table` actually reads. -/
def selectLines {α : Type} (file : List α) : List α :=
  (loadKeptIndices file.length).filterMap (fun i => file[i]?)

/-- Parse one kept data line: the `Date` and `Heures` columns are
concatenated into a single timestamp (`parse_dates=[['Date','Heures']]`),
and the ten `usecols` data columns must all be present. -/
def parseLine : PhysLine → Option (Nat × List ℚ)
  | PhysLine.record day minute vals =>
      if vals.length = 10 then some (day * 1440 + minute, vals) else none
  | PhysLine.header => none
  | PhysLine.blank => none
  | PhysLine.footer => none

/-- Parse every kept data line; any unparsable line fails the whole load. -/
def parseAll : List PhysLine → Option (List (Nat × List ℚ))
  | [] => some []
  | a :: l => (parseLine a).bind (fun p => (parseAll l).map (fun ps => p :: ps))

/-- Model of `pd.read_table(...)` followed by `set_index('Date_Heures')`:
select physical lines by `skiprows`/`skipfooter`, require the header
line, parse the remaining records and index them by timestamp. -/
def read_table (file : List PhysLine) : Option DataFrame :=
  match selectLines file with
  | PhysLine.header :: body =>
      (parseAll body).map (fun es => ⟨COL_LABELS_XLS, es⟩)
  | _ => none

/-- The in-memory reshaping done by `load_power_data` after reading:
pop the signed exchange column, split it into the clipped `Import`
(`clip(lower=0)`, i.e. `max v 0`) and `Export` (`clip(upper=0)`, i.e.
`min v 0`) series, append both, and reorder the columns into the
display order. -/
def loadTransform (data : DataFrame) : DataFrame :=
  let ech_phy := data.getCol "Ech. physiques"
  let rest := data.dropCol "Ech. physiques"
  let imports := ech_phy.map (fun p => (p.1, max p.2 0))
  let exports := ech_phy.map (fun p => (p.1, min p.2 0))
  (concatTwo rest "Import" "Export" imports exports).select COL_LABELS_PLOT

/-- Model of `load_power_data`: read the file, then split and reorder. -/
def load_power_data (file : List PhysLine) : Option DataFrame :=
  (read_table file).map loadTransform

/-- Date-range slice `data[start_date:end_date]` with date-only bounds:
partial-string indexing keeps every timestamp from the start of
`start_date` through the end of `end_date`. -/
def sliceByDates (df : DataFrame) (start_date end_date : Nat) : DataFrame :=
  ⟨df.cols,
   df.entries.filter (fun p =>
     decide (start_date * 1440 ≤ p.1) && decide (p.1 < (end_date + 1) * 1440))⟩

/-- Model of `.resample(freq).mean()` for a bin width of `freq` minutes:
timestamps are grouped into epoch-anchored bins `t / freq`; each bin that
contains source rows produces one output row, labelled by the bin start,
holding the arithmetic mean of each column over the bin. -/
def resample (df : DataFrame) (freq : Nat) : DataFrame :=
  let bins := (df.entries.map (fun p => p.1 / freq)).dedup
  ⟨df.cols,
   bins.map (fun b =>
     let grp := df.entries.filter (fun p => p.1 / freq == b)
     (b * freq,
      (List.range df.cols.length).map (fun j =>
        (grp.map (fun p => p.2.getD j 0)).sum / (grp.length : ℚ))))⟩

/-- Model of `filter_data`: slice by the date range, then resample.
`freq` is the bin width in minutes (30min = 30, 1H = 60, 4H = 240,
1D = 1440, 1W = 10080). -/
def filter_data (df : DataFrame) (start_date end_date freq : Nat) : DataFrame :=
  resample (sliceByDates df start_date end_date) freq

/-- One chart trace: the category name, the stacking group and the fill
color. -/
structure Trace where
  name : String
  stackgroup : Nat
  color : String
deriving DecidableEq

/-- The figure: the trace list, plus the first and last timestamp of the
table's index, which the layout title interpolates. -/
structure Figure where
  traces : List Trace
  title_start : Nat
  title_end : Nat
deriving DecidableEq

/-- Build the trace of one column: stack group 2 for `Pompage` and
`Export`, group 1 otherwise; the color lookup `COLORS[col_name]` raises
a `KeyError` (here `none`) for a name outside the mapping. -/
def mkTrace (c : String) : Option Trace :=
  (COLORS.lookup c).map (fun color =>
    ⟨c, if c ∈ (["Pompage", "Export"] : List String) then 2 else 1, color⟩)

/-- Build the traces of all columns, in column order; the first failing
color lookup aborts the loop. -/
def buildTraces : List String → Option (List Trace)
  | [] => some []
  | c :: cs => (mkTrace c).bind (fun tr => (buildTraces cs).map (fun ts => tr :: ts))

/-- Model of `plot`: one trace per column in column order, then the
layout title reads `data.index[0]` and `data.index[-1]`, which raises
(here `none`) on an empty table. -/
def plot (df : DataFrame) : Option Figure :=
  (buildTraces df.cols).bind (fun traces =>
    (df.entries.head?).bind (fun first =>
      (df.entries.getLast?).map (fun last => ⟨traces, first.1, last.1⟩)))

/-- One entry of the frequency dropdown: label, bin width in minutes
(the width `pd.Timedelta(value)` denotes), and the disabled flag. -/
structure FreqOption where
  label : String
  value : Nat
  disabled : Bool
deriving DecidableEq

/-- The five frequency options offered by the dropdown, with their
widths in minutes. -/
def FREQ_OPTIONS : List (String × Nat) :=
  [("30min", 30), ("1H", 60), ("4H", 240), ("1D", 1440), ("1W", 10080)]

/-- Model of `update_sampling_freq_options`: with both dates set, the
span is `end_date + 1 day - start_date` and an option is disabled when
its width is greater than or equal to the span; with a missing date the
options are returned untouched (enabled). Dates are day numbers. -/
def update_sampling_freq_options
    (start_date end_date : Option Nat) : List FreqOption :=
  match start_date, end_date with
  | some s, some e =>
      FREQ_OPTIONS.map (fun p =>
        ⟨p.1, p.2, decide ((((e : Int) + 1) - (s : Int)) * 1440 ≤ (p.2 : Int))⟩)
  | _, _ => FREQ_OPTIONS.map (fun p => ⟨p.1, p.2, false⟩)

/-- A two-line record block of the synthetic two-day file: one data line
(30-minute resolution, every source column 0 except `Ech. physiques`
which is the constant -500) followed by the blank line of the
alternating layout. -/
def syntheticBlock (k : Nat) : List PhysLine :=
  [PhysLine.record (k / 48) ((k % 48) * 30) [0, 0, 0, 0, 0, 0, 0, 0, 0, -500],
   PhysLine.blank]

/-- The synthetic two-day input file: a header, 96 data/blank line pairs
covering two days at 30-minute resolution, and the trailing disclaimer
line. -/
def syntheticTwoDayFile : List PhysLine :=
  PhysLine.header :: (((List.range 96).map syntheticBlock).flatten ++ [PhysLine.footer])

/-- A minimal well-formed input file: header, one record, the blank line
of the pair, and the disclaimer. -/
def smallFile : List PhysLine :=
  [PhysLine.header,
   PhysLine.record 0 0 [1, 2, 3, 4, 5, 6, 7, 8, 9, 10],
   PhysLine.blank,
   PhysLine.footer]

/-- The empty table used as an `Option.getD` fallback. -/
def emptyDF : DataFrame := ⟨[], []⟩

/-- A concrete two-column table used to exercise the chart builder. -/
def plotDF : DataFrame := ⟨["Nucléaire", "Export"], [(0, [1, 2]), (10, [3, 4])]⟩

/-- The figure the chart builder produces for `plotDF`. -/
def plotFig : Figure := (plot plotDF).getD ⟨[], 0, 0⟩

/-- The trace `plot` builds for the `Export` column of `plotDF`. -/
def exTrace : Trace := ⟨"Export", 2, "lightgray"⟩

/-- The raw table `read_table` produces for `smallFile`. -/
def smallRaw : DataFrame := (read_table smallFile).getD emptyDF

/-- The table `load_power_data` produces for `smallFile`. -/
def smallLoaded : DataFrame := (load_power_data smallFile).getD emptyDF

/-- The table loaded from the synthetic two-day file. -/
def syntheticLoaded : DataFrame :=
  (load_power_data syntheticTwoDayFile).getD emptyDF

/-- The synthetic table filtered over its full two-day range at 1-day
frequency. -/
def syntheticFiltered : DataFrame := filter_data syntheticLoaded 0 1 1440


lemma parseLine_len {a : PhysLine} {p : Nat × List ℚ}
    (h : parseLine a = some p) : p.2.length = 10 := by
  cases a with
  | record day minute vals =>
      rw [parseLine] at h
      by_cases hv : vals.length = 10
      · rw [if_pos hv] at h
        cases h
        exact hv
      · rw [if_neg hv] at h
        cases h
  | header => cases h
  | blank => cases h
  | footer => cases h

lemma parseAll_len : ∀ {l : List PhysLine} {es : List (Nat × List ℚ)},
    parseAll l = some es → ∀ p ∈ es, p.2.length = 10 := by
  intro l
  induction l with
  | nil =>
      intro es h p hp
      rw [parseAll] at h
      cases h
      cases hp
  | cons a l ih =>
      intro es h p hp
      rw [parseAll] at h
      rcases ha : parseLine a with _ | q
      · rw [ha] at h; cases h
      · rw [ha, Option.some_bind] at h
        rcases hl : parseAll l with _ | ps
        · rw [hl] at h; cases h
        · rw [hl, Option.map_some'] at h
          cases h
          rcases List.mem_cons.mp hp with rfl | hmem
          · exact parseLine_len ha
          · exact ih hl p hmem

lemma read_table_cols {file : List PhysLine} {raw : DataFrame}
    (h : read_table file = some raw) : raw.cols = COL_LABELS_XLS := by
  unfold read_table at h
  split at h
  · rcases hp : parseAll _ with _ | es
    · rw [hp] at h; cases h
    · rw [hp, Option.map_some'] at h
      cases h
      rfl
  · cases h

lemma read_table_rows {file : List PhysLine} {raw : DataFrame}
    (h : read_table file = some raw) : ∀ p ∈ raw.entries, p.2.length = 10 := by
  unfold read_table at h
  split at h
  · rcases hp : parseAll _ with _ | es
    · rw [hp] at h; cases h
    · rw [hp, Option.map_some'] at h
      cases h
      exact parseAll_len hp
  · cases h

/-- Claim C2: for every valid input file, the table returned by
`load_power_data` has exactly the canonical display column set, in
canonical display order, with no duplicates, and the original signed
column `Ech. physiques` is absent from it. -/
theorem claim_C2 (file : List PhysLine) (df : DataFrame)
    (h : load_power_data file = some df) :
    df.cols = COL_LABELS_PLOT ∧ df.cols.Nodup ∧ "Ech. physiques" ∉ df.cols := by
  rcases hr : read_table file with _ | raw
  · rw [load_power_data, hr] at h; cases h
  · rw [load_power_data, hr, Option.map_some'] at h
    cases h
    refine ⟨rfl, ?_, ?_⟩
    · show COL_LABELS_PLOT.Nodup
      decide
    · show "Ech. physiques" ∉ COL_LABELS_PLOT
      decide

/-- Witness for claim C2 at the concrete four-line file `smallFile`. -/
theorem claim_C2_witness :
    load_power_data smallFile = some ((load_power_data smallFile).getD emptyDF) ∧
    ((load_power_data smallFile).getD emptyDF).cols = COL_LABELS_PLOT ∧
    ((load_power_data smallFile).getD emptyDF).cols.Nodup ∧
    "Ech. physiques" ∉ ((load_power_data smallFile).getD emptyDF).cols :=
  ⟨by decide, claim_C2 smallFile _ (by decide)⟩

/-- Claim C3: for every table and every degenerate range with
`end_date < start_date`, `filter_data` returns an empty table with the
same columns, and (being a total function here) raises no error. -/
theorem claim_C3 (df : DataFrame) (start_date end_date freq : Nat)
    (h : end_date < start_date) :
    (filter_data df start_date end_date freq).entries = [] ∧
    (filter_data df start_date end_date freq).cols = df.cols := by
  have hs : (sliceByDates df start_date end_date).entries = [] := by
    apply List.filter_eq_nil_iff.mpr
    intro p hp
    simp only [Bool.and_eq_true, decide_eq_true_eq, not_and, not_lt]
    intro h1
    omega
  constructor
  · show (resample (sliceByDates df start_date end_date) freq).entries = []
    simp [resample, hs]
  · rfl

/-- Witness for claim C3 at a concrete table and range. -/
theorem claim_C3_witness :
    1 < 2 ∧
    ((filter_data ⟨["Fioul"], [(0, [5])]⟩ 2 1 60).entries = [] ∧
     (filter_data ⟨["Fioul"], [(0, [5])]⟩ 2 1 60).cols = ["Fioul"]) :=
  ⟨by decide, claim_C3 ⟨["Fioul"], [(0, [5])]⟩ 2 1 60 (by decide)⟩

/-- Claim C6: the loader selects input rows by physical line-index
parity, not content: over a file in the documented alternating layout
(even physical line count, disclaimer last), a physical line index is
dropped exactly when it is positive and even (so the header at index 0
survives the parity rule) or when it is the final (footer) line of the
file. -/
theorem claim_C6 (n : Nat) (hn : n % 2 = 0) (x : Nat) (hx : x < n) :
    x ∉ loadKeptIndices n ↔ ((0 < x ∧ x % 2 = 0) ∨ x = n - 1) := by
  rcases n with _ | m
  · omega
  · have hm : m % 2 = 1 := by omega
    have hkeep : loadKeptIndices (m + 1) =
        (List.range m).filter (fun x => ! skiprows x) := by
      unfold loadKeptIndices
      rw [List.range_succ, List.filter_append]
      have hsing : List.filter (fun x => ! skiprows x) [m] = [m] := by
        simp [skiprows, hm]
      rw [hsing, List.dropLast_concat]
    have hiff : x ∈ (List.range m).filter (fun x => ! skiprows x) ↔
        (x < m ∧ ¬(0 < x ∧ x % 2 = 0)) := by
      rw [List.mem_filter, List.mem_range]
      simp only [skiprows, Bool.not_eq_eq_eq_not, Bool.not_true, Bool.and_eq_false_iff,
        decide_eq_false_iff_not, not_lt, beq_eq_false_iff_ne, ne_eq]
      omega
    rw [hkeep, hiff]
    omega

/-- Witness for claim C6 at a six-line file and index 3. -/
theorem claim_C6_witness :
    6 % 2 = 0 ∧ 3 < 6 ∧
    (3 ∉ loadKeptIndices 6 ↔ ((0 < 3 ∧ 3 % 2 = 0) ∨ 3 = 6 - 1)) :=
  ⟨rfl, by decide, claim_C6 6 rfl 3 (by decide)⟩

lemma mkTrace_spec {c : String} {tr : Trace} (h : mkTrace c = some tr) :
    tr.name = c ∧
    tr.stackgroup =
      (if c ∈ (["Pompage", "Export"] : List String) then 2 else 1) := by
  unfold mkTrace at h
  rcases hl : COLORS.lookup c with _ | color
  · rw [hl] at h; cases h
  · rw [hl, Option.map_some'] at h
    cases h
    exact ⟨rfl, rfl⟩

lemma buildTraces_mem : ∀ {cs : List String} {ts : List Trace},
    buildTraces cs = some ts → ∀ tr ∈ ts, ∃ c ∈ cs, mkTrace c = some tr := by
  intro cs
  induction cs with
  | nil =>
      intro ts h tr htr
      rw [buildTraces] at h
      cases h
      cases htr
  | cons c cs ih =>
      intro ts h tr htr
      rw [buildTraces] at h
      rcases hm : mkTrace c with _ | q
      · rw [hm] at h; cases h
      · rw [hm, Option.some_bind] at h
        rcases hb : buildTraces cs with _ | ts2
        · rw [hb] at h; cases h
        · rw [hb, Option.map_some'] at h
          cases h
          rcases List.mem_cons.mp htr with rfl | hmem
          · exact ⟨c, List.mem_cons_self c cs, hm⟩
          · obtain ⟨c2, hc2, hm2⟩ := ih hb tr hmem
            exact ⟨c2, List.mem_cons_of_mem _ hc2, hm2⟩

lemma buildTraces_names : ∀ {cs : List String} {ts : List Trace},
    buildTraces cs = some ts → ts.map Trace.name = cs := by
  intro cs
  induction cs with
  | nil =>
      intro ts h
      rw [buildTraces] at h
      cases h
      rfl
  | cons c cs ih =>
      intro ts h
      rw [buildTraces] at h
      rcases hm : mkTrace c with _ | q
      · rw [hm] at h; cases h
      · rw [hm, Option.some_bind] at h
        rcases hb : buildTraces cs with _ | ts2
        · rw [hb] at h; cases h
        · rw [hb, Option.map_some'] at h
          cases h
          rw [List.map_cons, ih hb, (mkTrace_spec hm).1]

lemma buildTraces_fail : ∀ {cs : List String} {c : String}, c ∈ cs →
    mkTrace c = none → buildTraces cs = none := by
  intro cs
  induction cs with
  | nil =>
      intro c hc
      cases hc
  | cons a l ih =>
      intro c hc hm
      rw [buildTraces]
      rcases List.mem_cons.mp hc with rfl | hmem
      · rw [hm]; rfl
      · rcases ha : mkTrace a with _ | q
        · rfl
        · rw [Option.some_bind, ih hmem hm]
          rfl

lemma plot_traces {df : DataFrame} {fig : Figure} (h : plot df = some fig) :
    buildTraces df.cols = some fig.traces := by
  unfold plot at h
  rcases hb : buildTraces df.cols with _ | ts
  · rw [hb] at h; cases h
  · rw [hb, Option.some_bind] at h
    rcases hh : df.entries.head? with _ | first
    · rw [hh] at h; cases h
    · rw [hh, Option.some_bind] at h
      rcases hl : df.entries.getLast? with _ | last
      · rw [hl] at h; cases h
      · rw [hl, Option.map_some'] at h
        cases h
        rfl

/-- Claim C4: every trace the chart builder emits sits in stack group 2
exactly when its category is Pompage or Export, every other category
sits in stack group 1; in particular Nucléaire and Solaire are in group
1, never sharing a stack group with Export or Pompage. -/
theorem claim_C4 (df : DataFrame) (fig : Figure) (h : plot df = some fig)
    (tr : Trace) (htr : tr ∈ fig.traces) :
    (tr.stackgroup = 2 ↔ (tr.name = "Pompage" ∨ tr.name = "Export")) ∧
    ((tr.name = "Nucléaire" ∨ tr.name = "Solaire") → tr.stackgroup = 1) ∧
    (tr.stackgroup = 1 ∨ tr.stackgroup = 2) := by
  obtain ⟨c, hc, hm⟩ := buildTraces_mem (plot_traces h) tr htr
  obtain ⟨hname, hgroup⟩ := mkTrace_spec hm
  subst hname
  have hmem_iff : tr.name ∈ (["Pompage", "Export"] : List String) ↔
      (tr.name = "Pompage" ∨ tr.name = "Export") := by
    simp
  by_cases hmm : tr.name ∈ (["Pompage", "Export"] : List String)
  · rw [if_pos hmm] at hgroup
    have hor := hmem_iff.mp hmm
    refine ⟨⟨fun _ => hor, fun _ => hgroup⟩, ?_, Or.inr hgroup⟩
    intro hns
    exfalso
    rcases hor with he | he <;> rcases hns with hn | hn <;> rw [he] at hn <;>
      exact absurd hn (by decide)
  · rw [if_neg hmm] at hgroup
    have hnor : ¬(tr.name = "Pompage" ∨ tr.name = "Export") := fun hor =>
      hmm (hmem_iff.mpr hor)
    refine ⟨⟨?_, fun hor => absurd hor hnor⟩, fun _ => hgroup, Or.inl hgroup⟩
    intro h2
    rw [hgroup] at h2
    exact absurd h2 (by decide)

/-- Witness for claim C4 at the concrete table `plotDF` and its Export
trace. -/
theorem claim_C4_witness :
    plot plotDF = some plotFig ∧ exTrace ∈ plotFig.traces ∧
    ((exTrace.stackgroup = 2 ↔
        (exTrace.name = "Pompage" ∨ exTrace.name = "Export")) ∧
     ((exTrace.name = "Nucléaire" ∨ exTrace.name = "Solaire") →
        exTrace.stackgroup = 1) ∧
     (exTrace.stackgroup = 1 ∨ exTrace.stackgroup = 2)) :=
  ⟨by decide, by decide, claim_C4 plotDF plotFig (by decide) exTrace (by decide)⟩

/-- Claim C9: the chart builder produces exactly one trace per column,
in the same order as the table's columns. -/
theorem claim_C9 (df : DataFrame) (fig : Figure) (h : plot df = some fig) :
    fig.traces.map Trace.name = df.cols :=
  buildTraces_names (plot_traces h)

/-- Witness for claim C9 at the concrete table `plotDF`. -/
theorem claim_C9_witness :
    plot plotDF = some plotFig ∧ plotFig.traces.map Trace.name = plotDF.cols :=
  ⟨by decide, claim_C9 plotDF plotFig (by decide)⟩

/-- Claim C7: a table with a column name outside the fixed `COLORS`
mapping makes the chart builder fail at color lookup (a `KeyError`,
modelled as `none`) instead of substituting a default color. -/
theorem claim_C7 (df : DataFrame) (c : String) (hc : c ∈ df.cols)
    (hm : COLORS.lookup c = none) : plot df = none := by
  have hb : buildTraces df.cols = none := by
    apply buildTraces_fail hc
    unfold mkTrace
    rw [hm]
    rfl
  unfold plot
  rw [hb]
  rfl

/-- Witness for claim C7 at a table with the unknown column `Foo`. -/
theorem claim_C7_witness :
    "Foo" ∈ (⟨["Foo"], [(0, [1])]⟩ : DataFrame).cols ∧
    COLORS.lookup "Foo" = none ∧
    plot ⟨["Foo"], [(0, [1])]⟩ = none :=
  ⟨by decide, by decide, claim_C7 ⟨["Foo"], [(0, [1])]⟩ "Foo" (by decide) (by decide)⟩

/-- Claim C10: the chart builder is partial on empty input: on a table
with zero rows (as `filter_data` returns for a degenerate range) `plot`
fails building the title, because the first and last index entries do
not exist. -/
theorem claim_C10 (df : DataFrame) (h : df.entries = []) : plot df = none := by
  unfold plot
  rw [h]
  rcases hb : buildTraces df.cols with _ | ts <;> rfl

/-- Witness for claim C10 at a concrete empty table. -/
theorem claim_C10_witness :
    (⟨["Fioul"], []⟩ : DataFrame).entries = [] ∧ plot ⟨["Fioul"], []⟩ = none :=
  ⟨rfl, claim_C10 ⟨["Fioul"], []⟩ rfl⟩

/-- Claim C8 counterexample: the UI does not disable only the options
strictly wider than the date span. For `start_date = end_date` (a
one-day span) the 1-day option is exactly as wide as the span and the
claim predicts it stays enabled, yet the code disables it. -/
theorem claim_C8_counterexample :
    ¬ (∀ o ∈ update_sampling_freq_options (some 0) (some 0),
        (o.disabled = true ↔
          (((0 : Int) + 1) - (0 : Int)) * 1440 < (o.value : Int))) := by
  decide

/-- Claim C8 (amended): for non-null dates the UI disables exactly the
frequency options whose width is greater than or equal to the selected
date span (`end_date` plus one day minus `start_date`); options strictly
narrower than the span stay enabled. -/
theorem claim_C8_amended (start_date end_date : Nat) (o : FreqOption)
    (ho : o ∈ update_sampling_freq_options (some start_date) (some end_date)) :
    o.disabled = true ↔
      (((end_date : Int) + 1) - (start_date : Int)) * 1440 ≤ (o.value : Int) := by
  simp only [update_sampling_freq_options, List.mem_map] at ho
  obtain ⟨p, hp, rfl⟩ := ho
  simp only [decide_eq_true_eq]

/-- Witness for the amended claim C8 at a four-day span and the 1-week
option. -/
theorem claim_C8_witness :
    (⟨"1W", 10080, true⟩ : FreqOption) ∈
      update_sampling_freq_options (some 0) (some 3) ∧
    ((⟨"1W", 10080, true⟩ : FreqOption).disabled = true ↔
      (((3 : Int) + 1) - (0 : Int)) * 1440 ≤
        (((⟨"1W", 10080, true⟩ : FreqOption).value : Nat) : Int)) :=
  ⟨by decide, claim_C8_amended 0 3 _ (by decide)⟩

set_option maxRecDepth 100000 in
unseal Rat.add Rat.mul Rat.inv in
/-- Claim C5: end-to-end scenario: loading the synthetic two-day
30-minute-resolution file whose exchange value is the constant -500 on
every row, then filtering over the full date range at 1-day frequency,
yields exactly 2 rows, and every row has Export = -500 and Import = 0. -/
theorem claim_C5 :
    load_power_data syntheticTwoDayFile = some syntheticLoaded ∧
    syntheticFiltered.entries.length = 2 ∧
    ∀ p ∈ syntheticFiltered.entries,
      p.2.getD (syntheticFiltered.cols.indexOf "Export") 0 = -500 ∧
      p.2.getD (syntheticFiltered.cols.indexOf "Import") 0 = 0 := by
  decide

lemma loadTransform_cols (data : DataFrame) :
    (loadTransform data).cols = COL_LABELS_PLOT := rfl

lemma getD_map_eq {α β : Type} (l : List α) (f : α → β) (i : Nat)
    (h : i < l.length) (d : β) :
    (l.map f).getD i d = f (l.get ⟨i, h⟩) := by
  rw [List.getD_eq_getElem?_getD, List.getElem?_map, List.getElem?_eq_getElem h]
  simp [List.get_eq_getElem]

lemma getD_append_pair (l : List ℚ) (a b : ℚ) (h : l.length = 9) :
    ((l ++ [a, b]).getD 9 0 = a) ∧ ((l ++ [a, b]).getD 10 0 = b) := by
  constructor <;>
  · rw [List.getD_eq_getElem?_getD, List.getElem?_append_right (by omega)]
    simp [h]

/-- Claim C1: for every loaded table, pointwise over the index, the
derived Import and Export series reconstruct the original signed
exchange series read from the file: Import + Export equals the original
`Ech. physiques` value at the same timestamp, with Import ≥ 0 (it is
`max value 0`) and Export ≤ 0 (it is `min value 0`). -/
theorem claim_C1 (file : List PhysLine) (raw df : DataFrame)
    (h1 : read_table file = some raw) (h2 : load_power_data file = some df)
    (i : Nat) (hi : i < df.entries.length) :
    ((df.getCol "Import").getD i (0, 0)).2 +
      ((df.getCol "Export").getD i (0, 0)).2 =
      ((raw.getCol "Ech. physiques").getD i (0, 0)).2 ∧
    0 ≤ ((df.getCol "Import").getD i (0, 0)).2 ∧
    ((df.getCol "Export").getD i (0, 0)).2 ≤ 0 ∧
    ((df.getCol "Import").getD i (0, 0)).1 =
      ((raw.getCol "Ech. physiques").getD i (0, 0)).1 := by
  rw [load_power_data, h1, Option.map_some'] at h2
  cases h2
  obtain ⟨cols, entries⟩ := raw
  have hcols : cols = COL_LABELS_XLS := read_table_cols h1
  subst hcols
  have hlen : ∀ p ∈ entries, p.2.length = 10 := read_table_rows h1
  have hentries : (loadTransform ⟨COL_LABELS_XLS, entries⟩).entries =
      entries.map (fun p =>
        (p.1, COL_LABELS_PLOT.map (fun c =>
          (p.2.eraseIdx (COL_LABELS_XLS.indexOf "Ech. physiques") ++
            [max (p.2.getD (COL_LABELS_XLS.indexOf "Ech. physiques") 0) 0,
             min (p.2.getD (COL_LABELS_XLS.indexOf "Ech. physiques") 0) 0]).getD
            ((COL_LABELS_XLS.erase "Ech. physiques" ++
              ["Import", "Export"]).indexOf c) 0))) := by
    simp only [loadTransform, DataFrame.getCol, DataFrame.dropCol, DataFrame.select,
      concatTwo, List.map_map, List.zip_map']
    rfl
  have hi2 : i < entries.length := by
    rw [hentries, List.length_map] at hi
    exact hi
  have hIdxI : COL_LABELS_PLOT.indexOf "Import" = 2 := by decide
  have hIdxE : COL_LABELS_PLOT.indexOf "Export" = 1 := by decide
  have hIdxX : COL_LABELS_XLS.indexOf "Ech. physiques" = 9 := by decide
  have hIdx2I : (COL_LABELS_XLS.erase "Ech. physiques" ++
      ["Import", "Export"]).indexOf "Import" = 9 := by decide
  have hIdx2E : (COL_LABELS_XLS.erase "Ech. physiques" ++
      ["Import", "Export"]).indexOf "Export" = 10 := by decide
  have hPLOT : COL_LABELS_PLOT = ["Pompage", "Export", "Import", "Bioénergies",
      "Eolien", "Solaire", "Nucléaire", "Hydraulique", "Gaz", "Charbon",
      "Fioul"] := by decide
  simp only [DataFrame.getCol, loadTransform_cols, hIdxI, hIdxE, hIdxX, hentries,
    List.map_map]
  rw [getD_map_eq entries _ i hi2, getD_map_eq entries _ i hi2,
    getD_map_eq entries _ i hi2]
  have hplen : (entries.get ⟨i, hi2⟩).2.length = 10 :=
    hlen _ (entries.get_mem i hi2)
  have hlen9 : ((entries.get ⟨i, hi2⟩).2.eraseIdx 9).length = 9 := by
    rw [List.length_eraseIdx, hplen]
    simp
  obtain ⟨hA, hB⟩ := getD_append_pair ((entries.get ⟨i, hi2⟩).2.eraseIdx 9)
    (max ((entries.get ⟨i, hi2⟩).2.getD 9 0) 0)
    (min ((entries.get ⟨i, hi2⟩).2.getD 9 0) 0) hlen9
  simp only [Function.comp_apply, hPLOT, List.map_cons, List.map_nil,
    List.getD_cons_succ, List.getD_cons_zero, hIdx2I, hIdx2E, hA, hB]
  rcases le_total ((entries.get ⟨i, hi2⟩).2.getD 9 0) 0 with he | he
  · rw [max_eq_right he, min_eq_left he]
    exact ⟨zero_add _, le_refl 0, he, trivial⟩
  · rw [max_eq_left he, min_eq_right he]
    exact ⟨add_zero _, he, le_refl 0, trivial⟩

/-- Witness for claim C1 at `smallFile`, index 0. -/
theorem claim_C1_witness :
    read_table smallFile = some smallRaw ∧
    load_power_data smallFile = some smallLoaded ∧
    0 < smallLoaded.entries.length ∧
    (((smallLoaded.getCol "Import").getD 0 (0, 0)).2 +
       ((smallLoaded.getCol "Export").getD 0 (0, 0)).2 =
       ((smallRaw.getCol "Ech. physiques").getD 0 (0, 0)).2 ∧
     0 ≤ ((smallLoaded.getCol "Import").getD 0 (0, 0)).2 ∧
     ((smallLoaded.getCol "Export").getD 0 (0, 0)).2 ≤ 0 ∧
     ((smallLoaded.getCol "Import").getD 0 (0, 0)).1 =
       ((smallRaw.getCol "Ech. physiques").getD 0 (0, 0)).1) :=
  ⟨by decide, by decide, by decide,
   claim_C1 smallFile smallRaw smallLoaded (by decide) (by decide) 0 (by decide)⟩
